import Mathlib

/-!
Verification development for the context-engineering pipeline and the
context-aware model router of the q-and-a-orchestra-agent code base.

Modelling conventions (shallow embedding of the Python sources):
* Python floats are modelled as exact rationals (`ℚ`); the float operations
  occurring in the embedded code are additions, multiplications, divisions,
  comparisons, `min`/`max`, all of which are exact on the values the code
  manipulates.
* Python dicts are modelled as insertion-ordered association lists
  `List (String × α)`; `dict.update` keeps the position of existing keys and
  appends new keys, matching CPython semantics.
* Python `None` and optional values are modelled with `Option`.
* Raised exceptions are modelled with `Except String`; a `try/except` block
  becomes a `match` on the `Except` value.
* The filesystem, clock, uuid generator and injected collaborators
  (mem0 client, repository analyzer, model registry, policy engine) are
  explicit oracle parameters.
* Timestamps (`datetime`) are modelled as abstract `Nat` ticks, with the ISO
  rendering of `utcnow` passed in as a string where the code interpolates it.
-/

namespace Orchestra

/-- Dynamic Python value, for heterogeneously typed dict payloads
(`Dict[str, Any]`) such as rule walls, constraints and preferences. -/
inductive PyVal where
  | none : PyVal
  | vBool : Bool → PyVal
  | vInt : Int → PyVal
  | vRat : ℚ → PyVal
  | vStr : String → PyVal
  | vList : List PyVal → PyVal
  | vDict : List (String × PyVal) → PyVal

/-- Python truthiness of a dynamic value. -/
def PyVal.truthy : PyVal → Bool
  | .none => false
  | .vBool b => b
  | .vInt n => n != 0
  | .vRat q => q != 0
  | .vStr s => s != ""
  | .vList l => !l.isEmpty
  | .vDict d => !d.isEmpty

/-- Association-list lookup (first binding of a key), modelling `dict[k]` /
`dict.get(k)`. -/
def dictGet (d : List (String × α)) (k : String) : Option α :=
  (d.find? (fun p => p.1 == k)).map (fun p => p.2)

/-- Key membership, modelling `k in dict`. -/
def dictContains (d : List (String × α)) (k : String) : Bool :=
  (dictGet d k).isSome

/-- Python `dict.update`: existing keys are overwritten in place, new keys are
appended in the order of the update argument. -/
def dictUpd (d u : List (String × α)) : List (String × α) :=
  d.map (fun kv => match dictGet u kv.1 with
    | some v => (kv.1, v)
    | Option.none => kv)
  ++ u.filter (fun kv => !(dictContains d kv.1))

/-- Python string membership `pat in s` on character lists. -/
def subseqAt (p s : List Char) : Bool :=
  (List.range (s.length + 1)).any (fun i => p.isPrefixOf (s.drop i))

/-- Python substring test `pat in s`. -/
def strContainsSub (s pat : String) : Bool :=
  subseqAt pat.data s.data

/-- Python `str.lower()` (character-wise, as in CPython for the ASCII
text the code handles). -/
def pyLower (s : String) : String :=
  String.mk (s.data.map Char.toLower)

/-- One step list of `str.replace`: replace non-overlapping occurrences of
`p` by `r` left to right (`fuel` bounds the scan; the source only calls this
with a non-empty one-character pattern). -/
def replaceAux (p r : List Char) : Nat → List Char → List Char
  | 0, s => s
  | fuel+1, s =>
    match s with
    | [] => []
    | c :: rest =>
      if p.isPrefixOf s then r ++ replaceAux p r fuel (s.drop p.length)
      else c :: replaceAux p r fuel rest

/-- Python `s.replace(pat, rep)`. -/
def pyReplace (s pat rep : String) : String :=
  String.mk (replaceAux pat.data rep.data s.data.length s.data)

/-- Worker for `pySplitOn`: `cur` accumulates the current piece reversed;
`fuel` bounds the scan (the callers pass the input length plus one, enough
for the non-empty separators used). -/
def splitOnAuxL (sep : List Char) : Nat → List Char → List Char → List (List Char)
  | 0, cur, s => [cur.reverse ++ s]
  | fuel+1, cur, s =>
    match s with
    | [] => [cur.reverse]
    | c :: rest =>
      if sep.isPrefixOf s then
        cur.reverse :: splitOnAuxL sep fuel [] (s.drop sep.length)
      else splitOnAuxL sep fuel (c :: cur) rest

/-- Python `s.split(sep)` for a non-empty separator (also the semantics of
Lean's `String.splitOn`): split at each non-overlapping occurrence,
keeping empty pieces. -/
def pySplitOn (s sep : String) : List String :=
  (splitOnAuxL sep.data (s.data.length + 1) [] s.data).map String.mk

/-- Python `s.startswith(pre)`. -/
def pyStartsWith (s pre : String) : Bool :=
  pre.data.isPrefixOf s.data

/-- Python `s.endswith(suf)`. -/
def pyEndsWith (s suf : String) : Bool :=
  suf.data.isSuffixOf s.data

/-- Python slicing `s[:-n]`. -/
def pyDropRight (s : String) (n : Nat) : String :=
  String.mk (s.data.take (s.data.length - n))

/-- Python `sep.join(pieces)` / `str.strip` helpers on character data. -/
def pyIntercalate (sep : String) : List String → String
  | [] => ""
  | [a] => a
  | a :: b :: rest => a ++ sep ++ pyIntercalate sep (b :: rest)

/-- Python `s.strip()`: drop leading and trailing whitespace. -/
def pyStrip (s : String) : String :=
  String.mk (((s.data.dropWhile Char.isWhitespace).reverse.dropWhile Char.isWhitespace).reverse)

/-- Python truthy-or on optional strings: `a or b` where a falsy (missing or
empty) left operand yields the right operand. -/
def pyOrStr (a b : Option String) : Option String :=
  match a with
  | some s => if s = "" then b else some s
  | Option.none => b

/-- Truthiness of an optional string (`None` and `""` are falsy). -/
def optStrTruthy : Option String → Bool
  | some s => s != ""
  | Option.none => false

/-! ## config/security_config.py -/

/-- `SECURITY_CONFIG["max_repo_path_length"]` (env default `"256"`). -/
def MAX_REPO_PATH_LENGTH : Nat := 256

/-- `SECURITY_CONFIG["allowed_repo_base_dir"]` (env default `"/tmp/repos"`). -/
def ALLOWED_REPO_BASE_DIR : String := "/tmp/repos"

/-- `SECURITY_CONFIG["sanitize_error_messages"]` (env default `"true"`). -/
def SANITIZE_ERROR_MESSAGES : Bool := true

/-- `SECURITY_CONFIG["sensitive_keywords"]`. -/
def SENSITIVE_KEYWORDS : List String :=
  ["password", "passwd", "pwd",
   "secret", "secrets",
   "token", "tokens", "jwt",
   "key", "private_key", "api_key",
   "credential", "credentials",
   "auth", "authorization",
   "session", "cookie",
   "database", "db", "sql",
   "internal", "stack trace"]

/-- `SECURITY_CONFIG["allowed_file_extensions"]`. -/
def ALLOWED_FILE_EXTENSIONS : List String :=
  [".py", ".js", ".ts", ".jsx", ".tsx",
   ".json", ".yaml", ".yml", ".toml",
   ".md", ".txt", ".dockerfile",
   ".sql", ".sh", ".bash", ".zsh"]

/-- `SECURITY_CONFIG["blocked_file_patterns"]`. -/
def BLOCKED_FILE_PATTERNS : List String :=
  [".env", ".env.*",
   "*.key", "*.pem", "*.p12",
   "id_rsa", "id_ed25519",
   ".git/", ".svn/", ".hg/",
   "__pycache__/", "*.pyc",
   "node_modules/", ".npm/",
   ".venv/", "venv/", "env/",
   "*.log", "*.tmp"]

/-- Result of `validate_repo_path_security` (a dict with `valid` and
`reason`). -/
structure PathValidation where
  valid : Bool
  reason : Option String
  deriving DecidableEq

/-- `os.path.normpath` for POSIX paths, following CPython's algorithm:
drop empty and `.` components, resolve `..` against a preceding component
where possible, preserve one or two leading slashes. -/
def posixNormpath (path : String) : String :=
  if path = "" then "." else
  let initialSlashes : Nat :=
    if pyStartsWith path ("/") then
      if pyStartsWith path ("//") && !pyStartsWith path ("///") then 2 else 1
    else 0
  let comps := pySplitOn path ("/")
  let newComps := comps.foldl
    (fun (acc : List String) comp =>
      if comp = "" ∨ comp = "." then acc
      else if comp ≠ ".." ∨ (initialSlashes = 0 ∧ acc = [])
              ∨ (acc ≠ [] ∧ acc.getLast? = some "..") then
        acc ++ [comp]
      else if acc ≠ [] then acc.dropLast
      else acc)
    []
  let joined := pyIntercalate ("/") newComps
  let withSlashes :=
    String.mk (List.replicate initialSlashes '/') ++ joined
  if withSlashes = "" then "." else withSlashes

/-- `validate_repo_path_security` from `config/security_config.py`. -/
def validateRepoPathSecurity (repoPath : String) : PathValidation :=
  if repoPath = "" then
    { valid := false, reason := some "Empty path" }
  else if repoPath.length > MAX_REPO_PATH_LENGTH then
    { valid := false, reason := some "Path too long" }
  else
    let normalized := posixNormpath repoPath
    if strContainsSub normalized ("..") ||
       pyStartsWith normalized ("/") then
      { valid := false, reason := some "Path traversal detected" }
    else
      match BLOCKED_FILE_PATTERNS.find? (fun pat => strContainsSub repoPath pat) with
      | some pat => { valid := false, reason := some ("Blocked pattern: " ++ pat) }
      | Option.none => { valid := true, reason := Option.none }

/-- `sanitize_error_message` from `config/security_config.py`. -/
def sanitizeErrorMessage (message : String) : String :=
  if !SANITIZE_ERROR_MESSAGES then message else
  let messageLower := pyLower message
  if SENSITIVE_KEYWORDS.any (fun k => strContainsSub messageLower k) then
    "Internal server error"
  else if strContainsSub message ("/") || strContainsSub message ("\\") then
    "Internal server error"
  else if strContainsSub messageLower ("traceback") ||
          strContainsSub messageLower ("line ") then
    "Internal server error"
  else message

/-- `os.path.basename` for POSIX paths: everything after the last slash. -/
def posixBasename (p : String) : String :=
  match (pySplitOn p ("/")).getLast? with
  | some s => s
  | Option.none => p

/-- `pathlib.Path(name).suffix`: the extension of the final component —
the tail from the last dot, provided the dot is neither the first nor the
last character of the name. -/
def pathSuffix (name : String) : String :=
  let cs := name.data
  let n := cs.length
  let dotIdxs := (List.range n).filter (fun i => cs.getD i ' ' == '.')
  match dotIdxs.getLast? with
  | some i => if 0 < i ∧ i < n - 1 then String.mk (cs.drop i) else ""
  | Option.none => ""

/-- `is_safe_file` from `config/security_config.py`. -/
def isSafeFile (filePath : String) : Bool :=
  let fileName := posixBasename filePath
  let blockedHit := BLOCKED_FILE_PATTERNS.any (fun pat =>
    if pyEndsWith pat ("*") then
      pyStartsWith fileName (pyDropRight pat 1)
    else
      strContainsSub filePath pat)
  if blockedHit then false
  else
    let fileExt := pyLower (pathSuffix fileName)
    if fileExt != "" && !(ALLOWED_FILE_EXTENSIONS.contains fileExt) then false
    else true

/-! ## context_engineering/models.py

The pydantic models, with their declared defaults.  `datetime` fields are
abstract `Nat` ticks.  `ContextEnvelope.token_budget_used` is declared
`Optional[int]` in the source but is set by both paths of the builder and is
assumed an `int` by `apply_token_budget`, so it is modelled as `Nat`. -/

/-- `UserContext` (User layer). -/
structure UserContext where
  user_id : Option String := Option.none
  tenant_id : Option String := Option.none
  roles : List String := []
  expertise_level : Option String := Option.none
  preferences : List (String × PyVal) := []
  history_summary : Option String := Option.none
  session_count : Option Int := Option.none
  last_seen : Option Nat := Option.none

/-- `IntentContext` (Intent layer). -/
structure IntentContext where
  primary_intent : String
  task_type : Option String := Option.none
  success_criteria : Option String := Option.none
  constraints : List (String × PyVal) := []
  confidence_score : Option ℚ := Option.none
  escalation_path : Option String := Option.none

/-- `DomainContext` (Domain layer). -/
structure DomainContext where
  repo_path : Option String := Option.none
  repo_summary : Option String := Option.none
  key_components : List (String × String) := []
  related_docs : List (String × String) := []
  project_metadata : List (String × PyVal) := []
  entity_relationships : List (String × List String) := []

/-- `RulesContext` (Rules layer). -/
structure RulesContext where
  soft_walls : List (String × PyVal) := []
  hard_walls : List (String × PyVal) := []
  tenant_policies : List (String × PyVal) := []
  validation_schemas : List (String × PyVal) := []

/-- `EnvironmentContext` (Environment layer). -/
structure EnvironmentContext where
  environment : String := "development"
  model_routing_mode : String := "local-preferred"
  feature_flags : List (String × Bool) := []
  rate_limits : List (String × PyVal) := []
  active_sessions : Int := 0
  system_load : Option ℚ := Option.none
  deployment_version : Option String := Option.none

/-- `ExpositionContext` (Exposition layer). -/
structure ExpositionContext where
  narrative : String
  structured : List (String × PyVal) := []
  token_count : Option Nat := Option.none
  priority_score : Option ℚ := Option.none
  created_at : Nat

/-- `ContextEnvelope`: the complete six-layer context package. -/
structure ContextEnvelope where
  user : UserContext
  intent : IntentContext
  domain : DomainContext
  rules : RulesContext
  environment : EnvironmentContext
  exposition : ExpositionContext
  context_id : String
  created_at : Nat
  token_budget_used : Nat
  processing_time_ms : ℚ

/-- `ContextOverride`: per-layer override payloads (loosely typed dicts in
the source). -/
structure ContextOverride where
  override_user_preferences : Option (List (String × PyVal)) := Option.none
  override_intent : Option (List (String × PyVal)) := Option.none
  override_domain : Option (List (String × PyVal)) := Option.none
  override_rules : Option (List (String × PyVal)) := Option.none
  override_environment : Option (List (String × PyVal)) := Option.none

/-- `ContextConfig` with its pydantic field defaults. -/
structure ContextConfig where
  max_tokens_per_layer : List (String × Nat) :=
    [("user", 2000), ("intent", 1000), ("domain", 2000),
     ("rules", 1500), ("environment", 1000), ("exposition", 500)]
  enable_layer : List (String × Bool) :=
    [("user", true), ("intent", true), ("domain", true),
     ("rules", true), ("environment", true), ("exposition", true)]
  source_priorities : List (String × Nat) :=
    [("auth_claims", 100), ("mem0", 90), ("repo_analyzer", 80),
     ("config", 70), ("env_vars", 60)]

/-! ## context_engineering/sources/intent_detection.py

The classification regexes use only literal characters and `.*`; `re.search`
with such a pattern succeeds iff the literal segments occur in order, with
the gaps between consecutive segments free of newlines (`.` does not match
`\n`).  `reSearch` below implements exactly that. -/

/-- `INTENT_PATTERNS`. -/
def INTENT_PATTERNS : List (String × List String) :=
  [("architecture_design",
    ["architecture", "design.*system", "system.*design", "technical.*design",
     "scalability", "microservices", "monolith", "component.*design"]),
   ("repo_analysis",
    ["analyze.*repo", "codebase.*analysis", "understand.*code", "code.*review",
     "technical.*debt", "repository.*analysis"]),
   ("implementation",
    ["implement", "build.*feature", "code.*implementation", "develop.*solution",
     "write.*code", "create.*component"]),
   ("troubleshooting",
    ["bug", "error", "issue", "problem", "not.*working", "fix.*issue",
     "debug", "troubleshoot"]),
   ("security_analysis",
    ["security", "vulnerability", "threat.*model", "security.*review",
     "penetration.*test", "security.*audit"]),
   ("performance_optimization",
    ["performance", "optimize", "slow", "bottleneck", "latency",
     "throughput", "scaling"]),
   ("documentation",
    ["document", "readme", "api.*doc", "technical.*writing", "knowledge.*base"]),
   ("planning",
    ["plan", "roadmap", "strategy", "migrate", "refactor.*plan", "project.*plan"])]

/-- `SUCCESS_CRITERIA_TEMPLATES`. -/
def SUCCESS_CRITERIA_TEMPLATES : List (String × String) :=
  [("architecture_design", "Deliver a comprehensive architecture diagram with component relationships, technology choices, and scalability considerations."),
   ("repo_analysis", "Provide actionable insights about codebase structure, technical debt, and specific recommendations for improvement."),
   ("implementation", "Generate production-ready code with proper error handling, tests, and integration points clearly defined."),
   ("troubleshooting", "Identify root cause, provide clear reproduction steps, and offer a tested solution with rollback plan."),
   ("security_analysis", "Identify vulnerabilities, assess risk levels, and provide prioritized remediation steps."),
   ("performance_optimization", "Pinpoint bottlenecks, quantify improvements, and provide implementation steps with metrics."),
   ("documentation", "Create clear, comprehensive documentation that enables team autonomy and reduces onboarding time."),
   ("planning", "Deliver a phased implementation plan with dependencies, risks, and success metrics clearly defined.")]

/-- Chained search for the remaining literal segments of a `.*`-pattern: each
segment must occur after the previous one, with only non-newline characters
in between. -/
def chainSearch : List (List Char) → List Char → Bool
  | [], _ => true
  | p :: ps, s =>
    (List.range (s.length + 1)).any (fun j =>
      ((s.take j).all (fun c => c != '\n')) &&
      p.isPrefixOf (s.drop j) &&
      chainSearch ps (s.drop (j + p.length)))

/-- `re.search(pattern, message)` for the literal-plus-`.*` patterns of
`INTENT_PATTERNS`: the pattern is split on `.*` into literal segments, which
must occur in order (the leading segment anywhere, later gaps newline-free). -/
def reSearch (pat msg : String) : Bool :=
  match (pySplitOn pat (".*")).map (fun x => x.data) with
  | [] => true
  | p :: ps =>
    let s := msg.data
    (List.range (s.length + 1)).any (fun i =>
      p.isPrefixOf (s.drop i) && chainSearch ps (s.drop (i + p.length)))

/-- Python `str.split()` with no argument: split on whitespace runs,
dropping empty pieces. -/
def pyWsSplit (s : String) : List String :=
  (s.split (fun c => c.isWhitespace)).filter (fun x => x != "")

/-- `_classify_intent_from_message`: per-category pattern scores (1 point per
match, 1.5 for patterns of more than two whitespace-separated words —
none of the shipped patterns contain whitespace), normalized by the number
of patterns; first maximal category wins; confidence capped at 1.0. -/
def classifyIntentFromMessage (message : String) : String × ℚ :=
  let intentScores := INTENT_PATTERNS.filterMap (fun ip =>
    let pats := ip.2
    let hits := pats.filter (fun p => reSearch p message)
    if hits.length > 0 then
      let score : ℚ := hits.foldl
        (fun acc p => acc + (if (pyWsSplit p).length > 2 then (3:ℚ)/2 else 1)) 0
      some (ip.1, score / (pats.length : ℚ))
    else Option.none)
  match intentScores with
  | [] => ("general_assistance", (1:ℚ)/2)
  | x :: xs =>
    let best := xs.foldl (fun b y => if y.2 > b.2 then y else b) x
    (best.1, min best.2 1)

/-- `_get_intent_constraints`. -/
def getIntentConstraints (intent : String) : List (String × PyVal) :=
  let constraints : List (String × PyVal) := [("max_iterations", .vInt 3)]
  if intent = "architecture_design" then
    dictUpd constraints
      [("require_diagrams", .vBool true),
       ("consider_scalability", .vBool true),
       ("include_technology_rationale", .vBool true)]
  else if intent = "security_analysis" then
    dictUpd constraints
      [("require_compliance_check", .vBool true),
       ("minimum_vulnerability_severity", .vStr "medium"),
       ("include_mitigation_steps", .vBool true)]
  else if intent = "performance_optimization" then
    dictUpd constraints
      [("require_benchmarks", .vBool true),
       ("include_before_after", .vBool true),
       ("quantify_improvements", .vBool true)]
  else if intent = "implementation" then
    dictUpd constraints
      [("require_tests", .vBool true),
       ("include_error_handling", .vBool true),
       ("follow_style_guide", .vBool true)]
  else constraints

/-- `_get_escalation_path`. -/
def getEscalationPath (intent : String) : Option String :=
  dictGet
    [("security_analysis", "security_team"),
     ("architecture_design", "senior_architect"),
     ("performance_optimization", "performance_engineer"),
     ("troubleshooting", "senior_developer")]
    intent

/-- `detect_intent`: an explicit truthy `task_type` hint short-circuits
classification with the normalized hint at fixed confidence 0.9; otherwise
the lower-cased message is classified against `INTENT_PATTERNS`. -/
def detectIntent (message : String) (taskType : Option String)
    (sessionId : Option String) : IntentContext :=
  let messageLower := pyLower message
  let pc : String × ℚ :=
    match taskType with
    | some t =>
      if t ≠ "" then (pyReplace (pyLower t) (" ") ("_"), (9:ℚ)/10)
      else classifyIntentFromMessage messageLower
    | Option.none => classifyIntentFromMessage messageLower
  let primaryIntent := pc.1
  let confidenceScore := pc.2
  let successCriteria :=
    (dictGet SUCCESS_CRITERIA_TEMPLATES primaryIntent).getD
      ("Deliver a specific, actionable answer with clear next steps.")
  let constraints := getIntentConstraints primaryIntent
  let escalationPath := getEscalationPath primaryIntent
  { primary_intent := primaryIntent
    task_type := taskType
    success_criteria := some successCriteria
    constraints := constraints
    confidence_score := some confidenceScore
    escalation_path := escalationPath }

/-! ## context_engineering/sources/user_profile.py -/

/-- The keys of the raw auth-claims dict that `build_user_context` reads,
with `Option` capturing key presence. -/
structure AuthClaims where
  sub : Option String := Option.none
  user_id : Option String := Option.none
  tenant_id : Option String := Option.none
  organization_id : Option String := Option.none
  roles : Option (List String) := Option.none
  groups : Option (List String) := Option.none
  preferences : Option (List (String × PyVal)) := Option.none

/-- The optional payload returned by `mem0_client.get_user_summary`
(`None` within means the key is absent from the returned dict). -/
structure Mem0Summary where
  summary : Option String := Option.none
  session_count : Option Int := Option.none
  last_seen : Option Nat := Option.none

/-- The mem0 collaborator: `Option.none` models no injected client; an
`Except.error` models the client raising (caught by the adapter); an
`Except.ok Option.none` models a falsy (empty) summary dict. -/
def Mem0Client : Type := String → Except String (Option Mem0Summary)

/-- `build_user_context`: identity, role-derived preferences and expertise,
optional mem0 history, claim-supplied preference overrides.  `now` stands for
`datetime.utcnow()`. -/
def buildUserContext (authClaims : AuthClaims) (mem0Client : Option Mem0Client)
    (now : Nat) : UserContext :=
  let userId := pyOrStr authClaims.sub authClaims.user_id
  let tenantId := pyOrStr authClaims.tenant_id authClaims.organization_id
  let roles := authClaims.roles.getD (authClaims.groups.getD [])
  let preferences : List (String × PyVal) :=
    [("tone", .vStr "professional"),
     ("detail_level", .vStr "medium"),
     ("format", .vStr "markdown"),
     ("include_examples", .vBool true),
     ("language", .vStr "english")]
  let preferences :=
    if roles.contains ("admin") || roles.contains ("developer") then
      dictUpd preferences
        [("tone", .vStr "technical"),
         ("detail_level", .vStr "high"),
         ("include_code", .vBool true)]
    else if roles.contains ("executive") || roles.contains ("manager") then
      dictUpd preferences
        [("tone", .vStr "executive"),
         ("detail_level", .vStr "summary"),
         ("include_metrics", .vBool true)]
    else preferences
  let expertiseLevel :=
    if roles.contains ("senior") || roles.contains ("lead") then "expert"
    else if roles.contains ("junior") || roles.contains ("intern") then "beginner"
    else "intermediate"
  let history : Option String × Option Int × Option Nat :=
    match mem0Client with
    | some client =>
      if optStrTruthy userId then
        match client (userId.getD "") with
        | .error _ => (Option.none, Option.none, Option.none)
        | .ok Option.none => (Option.none, Option.none, Option.none)
        | .ok (some h) =>
          (some (h.summary.getD ("No previous history")),
           some (h.session_count.getD 0),
           h.last_seen)
      else (Option.none, Option.none, Option.none)
    | Option.none => (Option.none, Option.none, Option.none)
  let preferences :=
    match authClaims.preferences with
    | some p => dictUpd preferences p
    | Option.none => preferences
  { user_id := userId
    tenant_id := tenantId
    roles := roles
    expertise_level := some expertiseLevel
    preferences := preferences
    history_summary := history.1
    session_count := history.2.1
    last_seen := some (history.2.2.getD now) }

/-! ## context_engineering/sources/domain_graph.py -/

/-- The keys of the request-context dict that `build_domain_context` reads. -/
structure RequestContext where
  repository_path : Option String := Option.none
  repo_path : Option String := Option.none
  project_id : Option String := Option.none

/-- Read-only filesystem oracle for the repository scan. -/
structure FsOracle where
  isFile : String → Bool
  isDir : String → Bool
  existsPath : String → Bool

/-- Payload of `repo_analyzer_client.get_repo_summary`. -/
structure AnalyzerResult where
  summary : Option String := Option.none
  components : List (String × String) := []
  related_docs : List (String × String) := []

/-- The repository-analyzer collaborator (`Except.error` models a raised
exception, caught in `_analyze_repository`; `ok Option.none` a falsy result). -/
def RepoAnalyzer : Type := String → Except String (Option AnalyzerResult)

/-- `os.path.join(base, p)` for two POSIX components. -/
def posixJoin (base p : String) : String :=
  if pyStartsWith p ("/") then p
  else if base = "" ∨ pyEndsWith base ("/") then base ++ p
  else base ++ "/" ++ p

/-- `validate_repo_path` from `domain_graph.py`: security validation, then
resolution inside the configured base directory.  `os.makedirs(base_dir)`
only touches the base directory itself and does not affect the result.
`os.path.abspath` reduces to `normpath` here because the joined path is
already absolute. -/
def validateRepoPath (repoPath : String) : Option String :=
  if repoPath = "" then Option.none
  else if !(validateRepoPathSecurity repoPath).valid then Option.none
  else
    let baseDir := ALLOWED_REPO_BASE_DIR
    let fullPath := posixNormpath (posixJoin baseDir repoPath)
    if pyStartsWith fullPath (posixNormpath baseDir) then some fullPath
    else Option.none

/-- `_get_project_metadata` (mock lookup table keyed by project id). -/
def getProjectMetadata (projectId : String) : List (String × PyVal) :=
  [("project_id", .vStr projectId),
   ("created_at", .vStr "2024-01-01T00:00:00Z"),
   ("team_size", .vInt 5),
   ("tech_stack", .vList [.vStr "python", .vStr "fastapi", .vStr "postgresql"]),
   ("deployment_target", .vStr "aws"),
   ("compliance_requirements", .vList [.vStr "SOC2", .vStr "GDPR"])]

/-- `_build_entity_relationships`. -/
def buildEntityRelationships (d : DomainContext) : List (String × List String) :=
  let relationships : List (String × List String) := []
  let relationships :=
    if d.key_components ≠ [] then
      let components := d.key_components.map (fun kv => kv.1)
      let relationships := relationships ++ [("components", components)]
      let relationships :=
        if components.contains ("frontend") && components.contains ("backend") then
          relationships ++ [("frontend_backend", ["frontend", "backend"])]
        else relationships
      if components.contains ("database") && components.contains ("backend") then
        relationships ++ [("backend_database", ["backend", "database"])]
      else relationships
    else relationships
  let relationships :=
    if d.related_docs ≠ [] then
      relationships ++ [("documentation", d.related_docs.map (fun kv => kv.1))]
    else relationships
  if !d.project_metadata.isEmpty then
    let techStack :=
      match dictGet d.project_metadata ("tech_stack") with
      | some (.vList l) => l.filterMap (fun v => match v with
          | .vStr s => some s
          | _ => Option.none)
      | _ => []
    if techStack ≠ [] then relationships ++ [("technologies", techStack)]
    else relationships
  else relationships

/-- `_basic_repo_analysis`: scan the fixed allow-list of marker files and
directories (its internal `try/except` never fires in this pure model). -/
def basicRepoAnalysis (d : DomainContext) (repoPath : String)
    (fs : FsOracle) : DomainContext :=
  let safePatterns : List (String × String) :=
    [("package.json", "frontend"),
     ("requirements.txt", "backend"),
     ("pyproject.toml", "backend"),
     ("Dockerfile", "containerization"),
     ("docker-compose.yml", "orchestration"),
     ("migrations", "database"),
     ("alembic", "database"),
     ("README.md", "documentation")]
  let components : List (String × String) := safePatterns.foldl
    (fun comps fp =>
      let filePath := posixJoin repoPath fp.1
      if fs.isFile filePath && isSafeFile filePath then
        if fp.2 = "frontend" then
          dictUpd comps [("frontend", "Node.js/JavaScript project")]
        else if fp.2 = "backend" then
          dictUpd comps [("backend", "Python project")]
        else if fp.2 = "containerization" then
          dictUpd comps [("containerization", "Docker support")]
        else if fp.2 = "orchestration" then
          dictUpd comps [("orchestration", "Docker Compose setup")]
        else if fp.2 = "database" then
          dictUpd comps [("database", "Database migrations present")]
        else comps
      else comps)
    []
  let safeTestDirs := ["tests", "test", "__tests__", "spec"]
  let components :=
    match safeTestDirs.find? (fun t => fs.isDir (posixJoin repoPath t)) with
    | some t => dictUpd components [("testing", "Test suite in " ++ t ++ "/")]
    | Option.none => components
  let docDirs := ["docs", "documentation"]
  let relatedDocs : List (String × String) := docDirs.foldl
    (fun docs dd =>
      let docPath := posixJoin repoPath dd
      if fs.isDir docPath then dictUpd docs [(dd, docPath)] else docs)
    []
  let readmePath := posixJoin repoPath ("README.md")
  let relatedDocs :=
    if fs.isFile readmePath && isSafeFile readmePath then
      dictUpd relatedDocs [("README.md", readmePath)]
    else relatedDocs
  { d with
    repo_summary := some ("Repository at " ++ repoPath ++ " with components: "
      ++ pyIntercalate (", ") (components.map (fun kv => kv.1)))
    key_components := components
    related_docs := relatedDocs }

/-- `_analyze_repository`: use the injected analyzer when available, else the
basic scan; a raised analyzer error is caught and recorded in the summary. -/
def analyzeRepository (d : DomainContext) (repoPath : String)
    (fs : FsOracle) (analyzer : Option RepoAnalyzer) : DomainContext :=
  match analyzer with
  | some client =>
    match client repoPath with
    | .error e =>
      { d with repo_summary := some ("Repository analysis failed: " ++ e) }
    | .ok Option.none => d
    | .ok (some analysis) =>
      { d with
        repo_summary := analysis.summary
        key_components := analysis.components
        related_docs := analysis.related_docs }
  | Option.none => basicRepoAnalysis d repoPath fs

/-- `build_domain_context`: path extraction, confinement validation (a
validated path is scanned only if it exists), project metadata and entity
relationships. -/
def buildDomainContext (requestContext : RequestContext) (fs : FsOracle)
    (analyzer : Option RepoAnalyzer) : DomainContext :=
  let repoPath := pyOrStr requestContext.repository_path requestContext.repo_path
  let d : DomainContext :=
    { repo_path := repoPath
      repo_summary := Option.none
      key_components := []
      related_docs := []
      project_metadata := []
      entity_relationships := [] }
  let d :=
    if optStrTruthy repoPath then
      let raw := repoPath.getD ""
      match validateRepoPath raw with
      | some validatedPath =>
        if fs.existsPath validatedPath then
          { analyzeRepository d validatedPath fs analyzer with
              repo_path := some validatedPath }
        else { d with repo_summary := some ("Invalid repository path") }
      | Option.none => { d with repo_summary := some ("Invalid repository path") }
    else d
  let d :=
    match requestContext.project_id with
    | some pid =>
      if pid ≠ "" then
        { d with project_metadata := dictUpd d.project_metadata (getProjectMetadata pid) }
      else d
    | Option.none => d
  { d with entity_relationships := buildEntityRelationships d }

/-! ## Rendering helpers for the narrative f-strings

`build_exposition` interpolates dicts and lists into f-strings, which uses
`str()`.  The helpers below model CPython's rendering: containers print
their items with `repr` (strings in single quotes), top-level strings print
bare.  Float rendering of the terminating decimals occurring here is the
plain decimal expansion. -/

/-- A single-quote character as a string. -/
def sQ : String := String.singleton (Char.ofNat 39)

/-- Decimal expansion of a proper fraction `num/den`, up to `fuel` digits. -/
def decFrac : Nat → Nat → Nat → String
  | 0, _, _ => ""
  | _+1, _, 0 => ""
  | fuel+1, den, num =>
    let num10 := num * 10
    toString (num10 / den) ++ decFrac fuel den (num10 % den)

/-- `str(float)` for the exact rationals standing in for Python floats. -/
def ratStr (q : ℚ) : String :=
  let sign := if q.num < 0 then "-" else ""
  let a := q.num.natAbs
  let ip := a / q.den
  let rem := a % q.den
  if rem = 0 then sign ++ toString ip ++ ".0"
  else sign ++ toString ip ++ "." ++ decFrac 17 q.den rem

mutual

/-- Python `repr` of a dynamic value. -/
def pyRepr : PyVal → String
  | .none => "None"
  | .vBool b => if b then "True" else "False"
  | .vInt n => toString n
  | .vRat q => ratStr q
  | .vStr s => sQ ++ s ++ sQ
  | .vList l => "[" ++ pyIntercalate (", ") (pyReprList l) ++ "]"
  | .vDict d =>
    "\x7b" ++ pyIntercalate (", ") (pyReprDict d) ++ "\x7d"

/-- `repr` of each item of a list value. -/
def pyReprList : List PyVal → List String
  | [] => []
  | v :: vs => pyRepr v :: pyReprList vs

/-- `repr` of each key-value pair of a dict value. -/
def pyReprDict : List (String × PyVal) → List String
  | [] => []
  | kv :: kvs => (sQ ++ kv.1 ++ sQ ++ ": " ++ pyRepr kv.2) :: pyReprDict kvs

end

/-- Python `str` of a dynamic value (top-level strings print bare). -/
def pyStr : PyVal → String
  | .vStr s => s
  | v => pyRepr v

/-- f-string rendering of an `Optional[str]`. -/
def pyStrOptStr : Option String → String
  | some s => s
  | Option.none => "None"

/-- `x or default` for an optional string interpolated into an f-string. -/
def orElseStr (o : Option String) (dflt : String) : String :=
  match o with
  | some s => if s ≠ "" then s else dflt
  | Option.none => dflt

/-- An `Optional[str]` as a dynamic value. -/
def optStrVal : Option String → PyVal
  | some s => .vStr s
  | Option.none => .none

/-- A `Dict[str, bool]` as a dynamic value. -/
def boolDictVal (d : List (String × Bool)) : PyVal :=
  .vDict (d.map (fun kv => (kv.1, .vBool kv.2)))

/-- A `Dict[str, str]` as a dynamic value. -/
def strDictVal (d : List (String × String)) : PyVal :=
  .vDict (d.map (fun kv => (kv.1, .vStr kv.2)))

/-- `environment.system_load or 'unknown'` rendered into the narrative. -/
def loadStr (l : Option ℚ) : String :=
  match l with
  | some q => if q ≠ 0 then ratStr q else "unknown"
  | Option.none => "unknown"

/-! ## context_engineering/builder.py -/

/-- The priority computation of `build_exposition` (builder.py lines
113-118): base 0.5, +0.3 for the fixed high-priority intents, +0.2 for a
truthy system load above 0.8. -/
def expositionPriority (intent : IntentContext)
    (environment : EnvironmentContext) : ℚ :=
  let priorityScore : ℚ := 1/2
  let priorityScore :=
    if ["architecture_design", "security_analysis"].contains intent.primary_intent
    then priorityScore + 3/10 else priorityScore
  let priorityScore :=
    if (match environment.system_load with
        | some q => q != 0 && decide ((4:ℚ)/5 < q)
        | Option.none => false)
    then priorityScore + 1/5 else priorityScore
  priorityScore

/-- `build_exposition`: labeled narrative sections for the enabled,
non-empty layers; the structured map; the 4-chars-per-token estimate; the
priority score.  `nowIso` stands for `datetime.utcnow().isoformat()` and
`now` for `datetime.utcnow()`. -/
def buildExposition (user : UserContext) (intent : IntentContext)
    (domain : DomainContext) (rules : RulesContext)
    (environment : EnvironmentContext) (config : ContextConfig)
    (nowIso : String) (now : Nat) : ExpositionContext :=
  let narrativeParts : List String := []
  let narrativeParts :=
    if ((dictGet config.enable_layer ("user")).getD true) && optStrTruthy user.user_id then
      narrativeParts ++
        ["User:\n- ID: " ++ pyStrOptStr user.user_id ++
         ", Tenant: " ++ pyStrOptStr user.tenant_id ++
         ", Roles: " ++ pyRepr (.vList (user.roles.map .vStr)) ++
         "\n- Expertise: " ++ orElseStr user.expertise_level ("unknown") ++
         "\n- Preferences: " ++ pyRepr (.vDict user.preferences) ++
         "\n- History: " ++ orElseStr user.history_summary ("No history")]
    else narrativeParts
  let narrativeParts :=
    if (dictGet config.enable_layer ("intent")).getD true then
      narrativeParts ++
        ["Intent:\n- Primary: " ++ intent.primary_intent ++
         "\n- Task: " ++ orElseStr intent.task_type ("Not specified") ++
         "\n- Success: " ++ orElseStr intent.success_criteria ("Deliver actionable response") ++
         "\n- Constraints: " ++ pyRepr (.vDict intent.constraints)]
    else narrativeParts
  let narrativeParts :=
    if ((dictGet config.enable_layer ("domain")).getD true) && optStrTruthy domain.repo_path then
      narrativeParts ++
        ["Domain:\n- Repo: " ++ pyStrOptStr domain.repo_path ++
         "\n- Summary: " ++ orElseStr domain.repo_summary ("No analysis") ++
         "\n- Components: " ++ pyRepr (strDictVal domain.key_components) ++
         "\n- Docs: " ++ pyRepr (.vList (domain.related_docs.map (fun kv => .vStr kv.1)))]
    else narrativeParts
  let narrativeParts :=
    if (dictGet config.enable_layer ("rules")).getD true then
      narrativeParts ++
        ["Rules:\n- Soft walls (style): " ++ pyRepr (.vDict rules.soft_walls) ++
         "\n- Hard walls (mandatory): " ++ pyRepr (.vDict rules.hard_walls)]
    else narrativeParts
  let narrativeParts :=
    if (dictGet config.enable_layer ("environment")).getD true then
      narrativeParts ++
        ["Environment:\n- Mode: " ++ environment.environment ++
         "\n- Routing: " ++ environment.model_routing_mode ++
         "\n- Features: " ++ pyRepr (boolDictVal environment.feature_flags) ++
         "\n- Load: " ++ loadStr environment.system_load]
    else narrativeParts
  let narrative := pyIntercalate ("\n\n") narrativeParts
  let structured : List (String × PyVal) :=
    [("user_id", optStrVal user.user_id),
     ("tenant_id", optStrVal user.tenant_id),
     ("roles", .vList (user.roles.map .vStr)),
     ("primary_intent", .vStr intent.primary_intent),
     ("task_type", optStrVal intent.task_type),
     ("repo_path", optStrVal domain.repo_path),
     ("environment", .vStr environment.environment),
     ("model_routing", .vStr environment.model_routing_mode),
     ("hard_walls", .vDict rules.hard_walls),
     ("feature_flags", boolDictVal environment.feature_flags),
     ("timestamp", .vStr nowIso)]
  let tokenCount := narrative.length / 4 + (pyStr (.vDict structured)).length / 4
  { narrative := pyStrip narrative
    structured := structured
    token_count := some tokenCount
    priority_score := some (expositionPriority intent environment)
    created_at := now }

/-! ### Override application

Pydantic v1 `setattr` raises on an unknown field and assigns known fields
without validation; a typed embedding cannot hold an ill-typed value, so a
type-mismatched override value for a known field is modelled as a raised
error as well. -/

/-- A dynamic dict as a `Dict[str, bool]`, when well typed. -/
def asBoolDict (d : List (String × PyVal)) : Option (List (String × Bool)) :=
  d.mapM (fun kv => match kv.2 with
    | .vBool b => some (kv.1, b)
    | _ => Option.none)

/-- A dynamic dict as a `Dict[str, str]`, when well typed. -/
def asStrDict (d : List (String × PyVal)) : Option (List (String × String)) :=
  d.mapM (fun kv => match kv.2 with
    | .vStr s => some (kv.1, s)
    | _ => Option.none)

/-- `for key, value in override.override_intent.items(): setattr(intent, key, value)`. -/
def applyIntentOverride (ov : List (String × PyVal))
    (intent : IntentContext) : Except String IntentContext :=
  ov.foldlM (fun (i : IntentContext) kv =>
    match kv.1, kv.2 with
    | "primary_intent", .vStr s => .ok { i with primary_intent := s }
    | "task_type", .vStr s => .ok { i with task_type := some s }
    | "task_type", .none => .ok { i with task_type := Option.none }
    | "success_criteria", .vStr s => .ok { i with success_criteria := some s }
    | "success_criteria", .none => .ok { i with success_criteria := Option.none }
    | "constraints", .vDict d => .ok { i with constraints := d }
    | "confidence_score", .vRat q => .ok { i with confidence_score := some q }
    | "confidence_score", .vInt n => .ok { i with confidence_score := some (n : ℚ) }
    | "confidence_score", .none => .ok { i with confidence_score := Option.none }
    | "escalation_path", .vStr s => .ok { i with escalation_path := some s }
    | "escalation_path", .none => .ok { i with escalation_path := Option.none }
    | k, _ => .error ("IntentContext override failed for key " ++ k))
    intent

/-- Targeted-key domain override: `repo_path` replacement and
`key_components` merge; other keys are ignored. -/
def applyDomainOverride (ov : List (String × PyVal))
    (domain : DomainContext) : Except String DomainContext := do
  let domain ←
    match dictGet ov ("repo_path") with
    | some (.vStr s) => Except.ok { domain with repo_path := some s }
    | some .none => Except.ok { domain with repo_path := Option.none }
    | some _ => Except.error "DomainContext override failed for key repo_path"
    | Option.none => Except.ok domain
  match dictGet ov ("key_components") with
  | some (.vDict kc) =>
    match asStrDict kc with
    | some kcs =>
      Except.ok { domain with key_components := dictUpd domain.key_components kcs }
    | Option.none => Except.error "DomainContext override failed for key key_components"
  | some _ => Except.error "DomainContext override failed for key key_components"
  | Option.none => Except.ok domain

/-- Targeted-key rules override: shallow merges into `soft_walls` and
`hard_walls`; other keys are ignored. -/
def applyRulesOverride (ov : List (String × PyVal))
    (rules : RulesContext) : Except String RulesContext := do
  let rules ←
    match dictGet ov ("soft_walls") with
    | some (.vDict sw) => Except.ok { rules with soft_walls := dictUpd rules.soft_walls sw }
    | some _ => Except.error "RulesContext override failed for key soft_walls"
    | Option.none => Except.ok rules
  match dictGet ov ("hard_walls") with
  | some (.vDict hw) => Except.ok { rules with hard_walls := dictUpd rules.hard_walls hw }
  | some _ => Except.error "RulesContext override failed for key hard_walls"
  | Option.none => Except.ok rules

/-- Environment override: `hasattr` guard, so unknown keys are skipped;
known keys are field replacements. -/
def applyEnvironmentOverride (ov : List (String × PyVal))
    (environment : EnvironmentContext) : Except String EnvironmentContext :=
  ov.foldlM (fun (e : EnvironmentContext) kv =>
    match kv.1, kv.2 with
    | "environment", .vStr s => .ok { e with environment := s }
    | "environment", _ => .error "EnvironmentContext override failed for key environment"
    | "model_routing_mode", .vStr s => .ok { e with model_routing_mode := s }
    | "model_routing_mode", _ => .error "EnvironmentContext override failed for key model_routing_mode"
    | "feature_flags", .vDict d =>
      (match asBoolDict d with
       | some bd => .ok { e with feature_flags := bd }
       | Option.none => .error "EnvironmentContext override failed for key feature_flags")
    | "feature_flags", _ => .error "EnvironmentContext override failed for key feature_flags"
    | "rate_limits", .vDict d => .ok { e with rate_limits := d }
    | "rate_limits", _ => .error "EnvironmentContext override failed for key rate_limits"
    | "active_sessions", .vInt n => .ok { e with active_sessions := n }
    | "active_sessions", _ => .error "EnvironmentContext override failed for key active_sessions"
    | "system_load", .vRat q => .ok { e with system_load := some q }
    | "system_load", .vInt n => .ok { e with system_load := some (n : ℚ) }
    | "system_load", .none => .ok { e with system_load := Option.none }
    | "system_load", _ => .error "EnvironmentContext override failed for key system_load"
    | "deployment_version", .vStr s => .ok { e with deployment_version := some s }
    | "deployment_version", .none => .ok { e with deployment_version := Option.none }
    | "deployment_version", _ => .error "EnvironmentContext override failed for key deployment_version"
    | _, _ => .ok e)
    environment

/-- Inputs of one envelope build: identity/clock oracles, the outcome of
each source adapter (an `Except`, modelling that any stage of the `try`
block may raise), the configuration and the per-request override.  In the
source the stages are the inlined calls to `build_user_context`,
`detect_intent`, `build_domain_context`, `build_rules_context` and
`build_environment_context`. -/
structure BuildInputs where
  contextId : String
  nowIso : String
  now : Nat
  nowMs : ℚ
  userStage : Except String UserContext
  intentStage : Except String IntentContext
  domainStage : Except String DomainContext
  rulesStage : Except String RulesContext
  environmentStage : Except String EnvironmentContext
  config : ContextConfig
  ovrd : ContextOverride

/-- The `try` block of `build_context_envelope`: build each layer, apply the
truthy per-layer overrides, synthesize the exposition, assemble the
envelope. -/
def tryBuildEnvelope (b : BuildInputs) : Except String ContextEnvelope := do
  let user ← b.userStage
  let user :=
    match b.ovrd.override_user_preferences with
    | some p =>
      if !p.isEmpty then { user with preferences := dictUpd user.preferences p }
      else user
    | Option.none => user
  let intent ← b.intentStage
  let intent ←
    match b.ovrd.override_intent with
    | some ov => if !ov.isEmpty then applyIntentOverride ov intent else Except.ok intent
    | Option.none => Except.ok intent
  let domain ← b.domainStage
  let domain ←
    match b.ovrd.override_domain with
    | some ov => if !ov.isEmpty then applyDomainOverride ov domain else Except.ok domain
    | Option.none => Except.ok domain
  let rules ← b.rulesStage
  let rules ←
    match b.ovrd.override_rules with
    | some ov => if !ov.isEmpty then applyRulesOverride ov rules else Except.ok rules
    | Option.none => Except.ok rules
  let environment ← b.environmentStage
  let environment ←
    match b.ovrd.override_environment with
    | some ov => if !ov.isEmpty then applyEnvironmentOverride ov environment else Except.ok environment
    | Option.none => Except.ok environment
  let exposition := buildExposition user intent domain rules environment b.config b.nowIso b.now
  Except.ok
    { user := user
      intent := intent
      domain := domain
      rules := rules
      environment := environment
      exposition := exposition
      context_id := b.contextId
      created_at := b.now
      token_budget_used := exposition.token_count.getD 0
      processing_time_ms := b.nowMs }

/-- The `except` branch of `build_context_envelope`: the minimal fallback
envelope, with all layers at their defaults, the intent forced to
`error_recovery`, the fixed degraded narrative, the raw error text in the
structured payload and the fixed token usage 100. -/
def minimalFallbackEnvelope (b : BuildInputs) (e : String) : ContextEnvelope :=
  { user := {}
    intent := { primary_intent := "error_recovery" }
    domain := {}
    rules := {}
    environment := {}
    exposition :=
      { narrative := "Context building failed, using minimal context"
        structured := [("error", .vStr e)]
        created_at := b.now }
    context_id := b.contextId
    created_at := b.now
    token_budget_used := 100
    processing_time_ms := b.nowMs }

/-- `build_context_envelope`: the `try` block recovered at the assembler
boundary into the minimal fallback envelope. -/
def buildContextEnvelope (b : BuildInputs) : ContextEnvelope :=
  match tryBuildEnvelope b with
  | .ok env => env
  | .error e => minimalFallbackEnvelope b e

/-- Python slicing `s[:n]`: the first `n` characters. -/
def strTake (s : String) (n : Nat) : String :=
  String.mk (s.data.take n)

/-- The narrative truncation target of `apply_token_budget`:
`int(len(narrative) * (max_tokens / token_budget_used) * 0.9)`.  Python
`int()` truncates toward zero; the value is nonnegative here, so it is the
floor. -/
def budgetTargetLength (envelope : ContextEnvelope) (maxTokens : Nat) : Nat :=
  let reductionFactor : ℚ := (maxTokens : ℚ) / (envelope.token_budget_used : ℚ)
  (((envelope.exposition.narrative.length : ℚ) * reductionFactor * ((9:ℚ)/10)).floor).toNat

/-- `apply_token_budget`: no-op within budget, otherwise tail truncation of
the narrative with a fixed marker and reported usage clamped to the
maximum. -/
def applyTokenBudget (envelope : ContextEnvelope) (maxTokens : Nat) : ContextEnvelope :=
  if envelope.token_budget_used ≤ maxTokens then envelope
  else
    let narrative := envelope.exposition.narrative
    let targetLength := budgetTargetLength envelope maxTokens
    let narrative :=
      if narrative.length > targetLength then
        strTake narrative targetLength ++ "...[truncated]"
      else narrative
    { envelope with
        exposition := { envelope.exposition with narrative := narrative }
        token_budget_used := maxTokens }

/-! ## core/context_aware_model_router.py

The router's collaborators live in files not provided with the sources
(`core/task_profiles.py`, `core/model_registry.py`, `core/policy_engine.py`);
they are modelled from the spec as explicit parameters (§6 capability
interfaces). -/

/-- Modelled from the spec: `TaskProfile` (§3 TaskDescriptor — "task type,
criticality, constraint map, context-size estimate, compliance requirements,
capability flags"); `core/task_profiles.py` is not provided.  Only the
fields the router reads or writes are modelled. -/
structure TaskProfile where
  task_type : String := ""
  criticality : String := "normal"
  constraints : List (String × PyVal) := []
  context_size : Nat := 0
  compliance_requirements : List PyVal := []
  allow_advanced_models : Bool := false

/-- Modelled from the spec: a registered candidate model with a
provider+model identifier and metadata flags (§3 ScoredCandidate, §4.6
step 4); `core/model_registry.py` is not provided. -/
structure Model where
  provider_name : String
  model_id : String
  metadata : List (String × PyVal) := []

/-- `ScoredModel` as used by the router: model, numeric score, ordered
rationale strings (modelled from the spec §3; `core/policy_engine.py` is
not provided). -/
structure ScoredModel where
  model : Model
  score : ℚ
  reasons : List String

/-- Modelled from the spec: the candidate registry capability
`(provider) -> list<Candidate>`, `(id) -> optional Candidate` (§6);
`core/model_registry.py` is not provided. -/
structure ModelRegistry where
  getModel : String → Option Model
  getModelsByProvider : String → List Model

/-- Modelled from the spec: the base policy engine capability
`choose_best(TaskDescriptor) -> ScoredCandidate` (§6);
`core/policy_engine.py` is not provided. -/
def PolicyEngine : Type := TaskProfile → ScoredModel

/-- `hard_walls.get(key, default)` read as a list of provider-name strings
(the walls store string lists at these keys; non-string entries cannot match
a provider name and are dropped). -/
def hwStrList (hw : List (String × PyVal)) (k : String)
    (dflt : List String) : List String :=
  match dictGet hw k with
  | some (.vList l) => l.filterMap (fun v => match v with
      | .vStr s => some s
      | _ => Option.none)
  | some _ => dflt
  | Option.none => dflt

/-- `d.get(key, False)` used as a truthy test. -/
def dictGetTruthy (d : List (String × PyVal)) (k : String) : Bool :=
  match dictGet d k with
  | some v => v.truthy
  | Option.none => false

/-- `metadata.get("production_ready", False) is False`: true exactly when
the key is absent (default `False`) or bound to the bool `False`. -/
def metaIsFalse (metadata : List (String × PyVal)) (k : String) : Bool :=
  match dictGet metadata k with
  | some (.vBool false) => true
  | Option.none => true
  | some _ => false

/-- `_enhance_task_with_context`. -/
def enhanceTaskWithContext (task : TaskProfile)
    (context : ContextEnvelope) : TaskProfile :=
  let task :=
    if ["security_analysis", "troubleshooting"].contains context.intent.primary_intent then
      { task with criticality := "high" }
    else if context.user.expertise_level = some "beginner" then
      { task with criticality := "normal" }
    else task
  let task :=
    if !context.intent.constraints.isEmpty then
      { task with constraints := dictUpd task.constraints context.intent.constraints }
    else task
  let task :=
    { task with context_size :=
        if context.token_budget_used ≠ 0 then context.token_budget_used
        else task.context_size }
  match dictGet context.rules.hard_walls ("compliance_level") with
  | some v =>
    if v.truthy then { task with compliance_requirements := [v] } else task
  | Option.none => task

/-- The routing dict produced by `_apply_context_routing`. -/
structure RoutingDecision where
  reasons : List String := []
  override_model : Option String := Option.none
  compliance_required : Bool := false
  prefer_local : Bool := false
  prefer_lightweight : Bool := false

/-- `_apply_context_routing` (also returns the task, whose
`allow_advanced_models` flag it may set). -/
def applyContextRouting (task : TaskProfile)
    (context : ContextEnvelope) : RoutingDecision × TaskProfile :=
  let routing : RoutingDecision := {}
  let routing :=
    if context.environment.environment = "production" then
      let routing :=
        { routing with reasons :=
            routing.reasons ++ ["Production environment - prefer proven models"] }
      if context.environment.model_routing_mode = "local-preferred" then
        { routing with override_model := some "local/claude-2.1" }
      else routing
    else routing
  let rt :=
    if context.user.expertise_level = some "expert" then
      ({ routing with reasons :=
           routing.reasons ++ ["Expert user - can handle advanced models"] },
       { task with allow_advanced_models := true })
    else if context.user.expertise_level = some "beginner" then
      ({ routing with reasons :=
           routing.reasons ++ ["Beginner user - prefer patient, explanatory models"] },
       task)
    else (routing, task)
  let routing := rt.1
  let task := rt.2
  let routing :=
    if strContainsSub context.intent.primary_intent ("security_analysis") then
      { routing with
          reasons := routing.reasons ++ ["Security task - require compliance-approved models"]
          compliance_required := true }
    else routing
  let routing :=
    if (dictGet context.environment.feature_flags ("budget_conscious")).getD false then
      { routing with
          reasons := routing.reasons ++ ["Budget conscious - prefer cost-effective models"]
          prefer_local := true }
    else routing
  let routing :=
    if (match context.environment.system_load with
        | some q => q != 0 && decide ((4:ℚ)/5 < q)
        | Option.none => false) then
      { routing with
          reasons := routing.reasons ++ ["High system load - prefer lightweight models"]
          prefer_lightweight := true }
    else routing
  (routing, task)

/-- `_passes_context_filters`: provider allow-list, compliance flag and
production-readiness checks. -/
def passesContextFilters (choice : ScoredModel)
    (context : ContextEnvelope) : Bool :=
  let allowedProviders :=
    hwStrList context.rules.hard_walls ("allowed_model_providers") []
  if !allowedProviders.isEmpty &&
     !(allowedProviders.contains choice.model.provider_name) then false
  else if dictGetTruthy context.rules.hard_walls ("require_compliance") &&
          !(dictGetTruthy choice.model.metadata ("compliance_approved")) then false
  else if context.environment.environment = "production" &&
          metaIsFalse choice.model.metadata ("production_ready") then false
  else true

/-- `_get_compliant_fallback`: designated local models first (with no
allow-list check), then the first registered model of an approved
provider. -/
def getCompliantFallback (registry : ModelRegistry)
    (context : ContextEnvelope) : Option ScoredModel :=
  let localModels := registry.getModelsByProvider ("ollama")
  match localModels.find? (fun m => m.model_id == "llama2" || m.model_id == "codellama") with
  | some m => some { model := m, score := (4:ℚ)/5, reasons := ["Fallback compliant model"] }
  | Option.none =>
    let approvedProviders :=
      hwStrList context.rules.hard_walls ("allowed_model_providers") ["anthropic"]
    match approvedProviders.findSome? (fun provider =>
        match registry.getModelsByProvider provider with
        | [] => Option.none
        | m :: _ => some m) with
    | some m => some { model := m, score := (7:ℚ)/10, reasons := ["Approved cloud fallback"] }
    | Option.none => Option.none

/-- `plan_with_context`: context enhancement, routing rules, override or
policy-engine choice, context filters, compliant fallback; `None` when no
candidate survives. -/
def planWithContext (registry : ModelRegistry) (policyEngine : PolicyEngine)
    (task : TaskProfile) (contextEnvelope : ContextEnvelope) : Option ScoredModel :=
  let enhancedTask := enhanceTaskWithContext task contextEnvelope
  let rt := applyContextRouting enhancedTask contextEnvelope
  let routingDecision := rt.1
  let enhancedTask := rt.2
  let overridden : Option ScoredModel :=
    match routingDecision.override_model with
    | some om =>
      if om ≠ "" then
        match registry.getModel om with
        | some m => some { model := m, score := 1, reasons := routingDecision.reasons }
        | Option.none => Option.none
      else Option.none
    | Option.none => Option.none
  match overridden with
  | some choice => some choice
  | Option.none =>
    let choice := policyEngine enhancedTask
    if passesContextFilters choice contextEnvelope then some choice
    else getCompliantFallback registry contextEnvelope

/-! ## Shared lemmas -/

/-- Length of a Python slice `s[:n]`. -/
theorem strTake_length (s : String) (n : Nat) : (strTake s n).length = min n s.length := by
  show (s.data.take n).length = min n s.length
  rw [List.length_take]
  rfl

/-- `dictGet` on a cons cell. -/
theorem dictGet_cons {α : Type} (a : String × α) (tl : List (String × α)) (k : String) :
    dictGet (a :: tl) k = if a.1 == k then some a.2 else dictGet tl k := by
  by_cases h : a.1 == k <;> simp [dictGet, List.find?_cons, h]

/-- The per-entry function of `dictUpd` preserves keys. -/
theorem updFn_key {α : Type} (u : List (String × α)) (kv : String × α) :
    (match dictGet u kv.1 with
     | some v => (kv.1, v)
     | Option.none => kv).1 = kv.1 := by
  cases dictGet u kv.1 <;> rfl

/-- A key found in `d` is still found after the update map and any appended
tail. -/
theorem dictGet_isSome_map_append {α : Type} (u r : List (String × α)) :
    ∀ (d : List (String × α)) (k : String), (dictGet d k).isSome →
      (dictGet ((d.map (fun kv => match dictGet u kv.1 with
        | some v => (kv.1, v)
        | Option.none => kv)) ++ r) k).isSome := by
  intro d
  induction d with
  | nil => intro k h; simp [dictGet] at h
  | cons a tl ih =>
    intro k h
    rw [List.map_cons, List.cons_append, dictGet_cons]
    rw [updFn_key]
    rw [dictGet_cons] at h
    by_cases hk : a.1 == k
    · simp [hk]
    · rw [if_neg hk] at h ⊢
      exact ih k h

/-- `dict.update` never removes keys. -/
theorem dictContains_dictUpd {α : Type} (d u : List (String × α)) (k : String)
    (h : dictContains d k = true) : dictContains (dictUpd d u) k = true := by
  unfold dictContains at *
  unfold dictUpd
  exact dictGet_isSome_map_append u _ d k h

/-- Decidability of "the optional system load is present and above the
threshold". -/
instance instDecidableLoadGt (l : Option ℚ) (t : ℚ) :
    Decidable (∃ q, l = some q ∧ t < q) :=
  match l with
  | Option.none => isFalse (by rintro ⟨q, hq, _⟩; cases hq)
  | some q =>
    if h : t < q then isTrue ⟨q, rfl, h⟩
    else isFalse (by rintro ⟨q', hq', hlt⟩; cases hq'; exact h hlt)

/-- Outside production the routing rules never set an override model. -/
theorem applyContextRouting_override_none (task : TaskProfile) (c : ContextEnvelope)
    (hprod : c.environment.environment ≠ "production") :
    (applyContextRouting task c).1.override_model = Option.none := by
  unfold applyContextRouting
  simp only [if_neg hprod]
  repeat' split
  all_goals rfl

/-- When the allow-list read with default `[]` is non-empty, the key holds a
list value, so any default gives the same result. -/
theorem hwStrList_of_ne_nil (hw : List (String × PyVal)) (k : String)
    (allowed : List String) (dflt : List String)
    (hA : hwStrList hw k [] = allowed) (hne : allowed ≠ []) :
    hwStrList hw k dflt = allowed := by
  unfold hwStrList at *
  rcases hv : dictGet hw k with _ | v
  · rw [hv] at hA; exact absurd hA.symm (by simpa using hne)
  · rw [hv] at hA
    cases v <;> simp_all

/-- A choice passing the context filters under a non-empty allow-list has
its provider in the list. -/
theorem passes_filters_mem (choice : ScoredModel) (context : ContextEnvelope)
    (allowed : List String)
    (hA : hwStrList context.rules.hard_walls ("allowed_model_providers") [] = allowed)
    (hne : allowed ≠ [])
    (h : passesContextFilters choice context = true) :
    choice.model.provider_name ∈ allowed := by
  unfold passesContextFilters at h
  rw [hA] at h
  have hie : allowed.isEmpty = false := by
    cases allowed with
    | nil => exact absurd rfl hne
    | cons a l => rfl
  simp [hie] at h
  exact h.1

/-! ## Concrete instances used by counterexamples and witnesses -/

/-- An exception message with a sensitive keyword and no path. -/
def cSensitiveError : String := "Database password: secret123"

/-- A build whose user stage raises with a sensitive message. -/
def cFailingBuild : BuildInputs :=
  { contextId := "ctx-err"
    nowIso := "2024-06-01T00:00:00"
    now := 0
    nowMs := 0
    userStage := .error cSensitiveError
    intentStage := .ok { primary_intent := "general_assistance" }
    domainStage := .ok {}
    rulesStage := .ok {}
    environmentStage := .ok {}
    config := {}
    ovrd := {} }

/-- An over-budget envelope with a five-character narrative. -/
def cShortNarrativeEnvelope : ContextEnvelope :=
  { user := {}
    intent := { primary_intent := "general_assistance" }
    domain := {}
    rules := {}
    environment := {}
    exposition := { narrative := "short", created_at := 0 }
    context_id := "ctx-budget"
    created_at := 0
    token_budget_used := 16000
    processing_time_ms := 0 }

/-- An over-budget envelope with a 100-character narrative. -/
def cLongNarrativeEnvelope : ContextEnvelope :=
  { user := {}
    intent := { primary_intent := "general_assistance" }
    domain := {}
    rules := {}
    environment := {}
    exposition := { narrative := String.mk (List.replicate 100 'n'), created_at := 0 }
    context_id := "ctx-budget-long"
    created_at := 0
    token_budget_used := 16000
    processing_time_ms := 0 }

/-- The truncation target of the five-character over-budget envelope:
`int(5 * (8000/16000) * 0.9) = int(2.25) = 2`. -/
theorem cShortTargetLength : budgetTargetLength cShortNarrativeEnvelope 8000 = 2 := by
  unfold budgetTargetLength
  have hlen : cShortNarrativeEnvelope.exposition.narrative.length = 5 := rfl
  have htbu : cShortNarrativeEnvelope.token_budget_used = 16000 := rfl
  rw [hlen, htbu]
  norm_num
  rw [show ((9:ℚ)/4).floor = ⌊(9:ℚ)/4⌋ from rfl]
  rw [show ⌊(9:ℚ)/4⌋ = 2 from by norm_num [Int.floor_eq_iff]]
  rfl

/-- The truncation target of the 100-character over-budget envelope:
`int(100 * (8000/16000) * 0.9) = 45`. -/
theorem cLongTargetLength : budgetTargetLength cLongNarrativeEnvelope 8000 = 45 := by
  unfold budgetTargetLength
  have hlen : cLongNarrativeEnvelope.exposition.narrative.length = 100 := rfl
  have htbu : cLongNarrativeEnvelope.token_budget_used = 16000 := rfl
  rw [hlen, htbu]
  norm_num
  rw [show ((45:ℚ)).floor = ⌊(45:ℚ)⌋ from rfl]
  rw [show ⌊(45:ℚ)⌋ = 45 from by norm_num]
  rfl

/-- A repository path containing `..` that `normpath` rewrites to a clean
relative path. -/
def cTraversalPath : String := "normal/../dangerous"

/-- A filesystem on which the normalized traversal target exists inside the
confinement root. -/
def cDangerFs : FsOracle :=
  { isFile := fun _ => false
    isDir := fun _ => false
    existsPath := fun p => p == "/tmp/repos/dangerous" }

/-- An empty filesystem. -/
def cFs0 : FsOracle :=
  { isFile := fun _ => false, isDir := fun _ => false, existsPath := fun _ => false }

/-- The static default preference profile of `build_user_context`. -/
def defaultPreferences : List (String × PyVal) :=
  [("tone", .vStr "professional"),
   ("detail_level", .vStr "medium"),
   ("format", .vStr "markdown"),
   ("include_examples", .vBool true),
   ("language", .vStr "english")]

/-- An envelope whose hard walls allow only the `anthropic` provider
(non-production environment). -/
def cAllowAnthropicEnvelope : ContextEnvelope :=
  { user := {}
    intent := { primary_intent := "general_assistance" }
    domain := {}
    rules := { hard_walls := [("allowed_model_providers", .vList [.vStr "anthropic"])] }
    environment := {}
    exposition := { narrative := "", created_at := 0 }
    context_id := "ctx-route"
    created_at := 0
    token_budget_used := 40
    processing_time_ms := 0 }

/-- A registered local ollama model. -/
def cLlamaModel : Model := { provider_name := "ollama", model_id := "llama2" }

/-- A registered openai model (the policy engine's pick). -/
def cGptModel : Model := { provider_name := "openai", model_id := "gpt-4" }

/-- A registry holding only the local ollama model. -/
def cOllamaRegistry : ModelRegistry :=
  { getModel := fun _ => Option.none
    getModelsByProvider := fun p => if p = "ollama" then [cLlamaModel] else [] }

/-- A policy engine that always picks the openai model. -/
def cOpenAiPolicy : PolicyEngine := fun _ =>
  { model := cGptModel, score := (9:ℚ)/10, reasons := [] }

/-- A registered anthropic model. -/
def cClaudeModel : Model := { provider_name := "anthropic", model_id := "claude-3" }

/-- A registry holding only the anthropic model. -/
def cAnthropicRegistry : ModelRegistry :=
  { getModel := fun _ => Option.none
    getModelsByProvider := fun p => if p = "anthropic" then [cClaudeModel] else [] }

/-- The scored fallback the router produces from `cAnthropicRegistry`. -/
def cClaudeScored : ScoredModel :=
  { model := cClaudeModel, score := (7:ℚ)/10, reasons := ["Approved cloud fallback"] }

/-! ## Claim theorems -/

/-- Claim C1, counterexample: with the hard walls allowing only
`anthropic`, a policy pick from `openai` is rejected by the filters, and the
fallback search returns the registered local `ollama/llama2` model without
any allow-list check — `plan_with_context` returns a candidate whose provider
is outside the configured non-empty allow-list instead of no candidate. -/
theorem C1_allowlist_counterexample :
    (planWithContext cOllamaRegistry cOpenAiPolicy {} cAllowAnthropicEnvelope).map
        (fun sm => sm.model.provider_name) = some "ollama" ∧
    hwStrList cAllowAnthropicEnvelope.rules.hard_walls ("allowed_model_providers") []
        = ["anthropic"] ∧
    ¬ (("ollama" : String) ∈ (["anthropic"] : List String)) :=
  ⟨rfl, rfl, by decide⟩

/-- Claim C1 (amended): when the rules hard walls carry a non-empty
`allowed_model_providers` list, the environment is not production (so no
context override fires), the registry lists models under their own provider
name, and no designated local fallback model (`ollama` `llama2`/`codellama`)
is registered, every candidate returned by `plan_with_context` — via the
policy engine after filtering or via the approved-provider fallback — has
its provider in the allow-list, and when none exists the router returns
`None`. -/
theorem C1_allowlist_amended (registry : ModelRegistry) (policyEngine : PolicyEngine)
    (task : TaskProfile) (context : ContextEnvelope) (allowed : List String)
    (hA : hwStrList context.rules.hard_walls ("allowed_model_providers") [] = allowed)
    (hne : allowed ≠ [])
    (hreg : ∀ p m, m ∈ registry.getModelsByProvider p → m.provider_name = p)
    (hprod : context.environment.environment ≠ "production")
    (hnoLocal : ∀ m ∈ registry.getModelsByProvider ("ollama"),
      m.model_id ≠ "llama2" ∧ m.model_id ≠ "codellama") :
    ∀ sm, planWithContext registry policyEngine task context = some sm →
      sm.model.provider_name ∈ allowed := by
  intro sm hsm
  unfold planWithContext at hsm
  simp only [applyContextRouting_override_none _ _ hprod] at hsm
  set choice := policyEngine (applyContextRouting (enhanceTaskWithContext task context) context).2
    with hchoice
  by_cases hpass : passesContextFilters choice context = true
  · rw [hpass] at hsm
    simp only [if_true] at hsm
    have hcs := Option.some.inj hsm
    subst hcs
    exact passes_filters_mem _ _ _ hA hne hpass
  · rw [Bool.not_eq_true] at hpass
    rw [hpass] at hsm
    simp only [Bool.false_eq_true, if_false] at hsm
    unfold getCompliantFallback at hsm
    have hfind : (registry.getModelsByProvider ("ollama")).find?
        (fun m => m.model_id == "llama2" || m.model_id == "codellama") = Option.none := by
      apply List.find?_eq_none.mpr
      intro m hm
      have := hnoLocal m hm
      simp [this.1, this.2]
    simp only [hfind] at hsm
    simp only [hwStrList_of_ne_nil _ _ allowed _ hA hne] at hsm
    rcases hfs : allowed.findSome? (fun provider =>
        match registry.getModelsByProvider provider with
        | [] => Option.none
        | m :: _ => some m) with _ | m
    · simp only [hfs] at hsm
      cases hsm
    · simp only [hfs] at hsm
      have hcs := Option.some.inj hsm
      subst hcs
      show m.provider_name ∈ allowed
      obtain ⟨p, hp, hfp⟩ := List.exists_of_findSome?_eq_some hfs
      have hmem : m ∈ registry.getModelsByProvider p := by
        rcases hl : registry.getModelsByProvider p with _ | ⟨m0, rest⟩
        · rw [hl] at hfp; cases hfp
        · rw [hl] at hfp
          cases hfp
          exact List.mem_cons_self _ _
      rw [hreg p m hmem]
      exact hp

/-- Claim C1 witness: with only an anthropic model registered and an openai
policy pick, the amended theorem applies and the fallback candidate's
provider is in the allow-list. -/
theorem C1_allowlist_amended_witness :
    cClaudeScored.model.provider_name ∈ (["anthropic"] : List String) :=
  C1_allowlist_amended cAnthropicRegistry cOpenAiPolicy {} cAllowAnthropicEnvelope
    ["anthropic"] rfl (by decide)
    (by
      intro p m hm
      simp only [cAnthropicRegistry] at hm
      split at hm
      · next h =>
        rw [h]
        cases hm with
        | head => rfl
        | tail _ hx => cases hx
      · cases hm)
    (by decide)
    (by
      intro m hm
      have hempty : cAnthropicRegistry.getModelsByProvider ("ollama") = [] := rfl
      rw [hempty] at hm
      cases hm)
    cClaudeScored rfl

/-- Claim C2: `build_context_envelope` never propagates a raised exception:
either the pipeline succeeds and the assembled envelope is returned, or some
stage raises and the minimal fallback envelope is returned, with all layers
at their defaults, intent `error_recovery`, the fixed degraded-service
narrative, and token usage 100. -/
theorem C2_fallback_recovery (b : BuildInputs) :
    (∃ env, tryBuildEnvelope b = .ok env ∧ buildContextEnvelope b = env) ∨
    (∃ e, tryBuildEnvelope b = .error e ∧
      buildContextEnvelope b = minimalFallbackEnvelope b e ∧
      (buildContextEnvelope b).user = ({} : UserContext) ∧
      (buildContextEnvelope b).intent.primary_intent = "error_recovery" ∧
      (buildContextEnvelope b).domain = ({} : DomainContext) ∧
      (buildContextEnvelope b).rules = ({} : RulesContext) ∧
      (buildContextEnvelope b).environment = ({} : EnvironmentContext) ∧
      (buildContextEnvelope b).exposition.narrative
        = "Context building failed, using minimal context" ∧
      (buildContextEnvelope b).token_budget_used = 100) := by
  cases h : tryBuildEnvelope b with
  | ok env =>
    exact Or.inl ⟨env, rfl, by unfold buildContextEnvelope; rw [h]⟩
  | error e =>
    have hb : buildContextEnvelope b = minimalFallbackEnvelope b e := by
      unfold buildContextEnvelope; rw [h]
    exact Or.inr ⟨e, rfl, hb, by rw [hb]; rfl, by rw [hb]; rfl, by rw [hb]; rfl,
      by rw [hb]; rfl, by rw [hb]; rfl, by rw [hb]; rfl, by rw [hb]; rfl⟩

/-- Claim C3 (code bug): when a pipeline stage raises with a message
containing a sensitive keyword, the fallback envelope's structured `error`
field carries the raw exception text, even though `sanitize_error_message`
maps that text to the fixed generic replacement — the builder never calls
the sanitizer. -/
theorem C3_raw_error_in_fallback :
    dictGet (buildContextEnvelope cFailingBuild).exposition.structured ("error")
      = some (.vStr cSensitiveError) ∧
    sanitizeErrorMessage cSensitiveError = "Internal server error" ∧
    cSensitiveError ≠ "Internal server error" :=
  ⟨rfl, by decide, by decide⟩

/-- Claim C4, counterexample: the over-budget envelope with the
five-character narrative `short` is truncated to two characters plus the
14-character marker, so the resulting narrative is strictly longer, not
strictly shorter. -/
theorem C4_token_budget_counterexample :
    8000 < cShortNarrativeEnvelope.token_budget_used ∧
    ¬ ((applyTokenBudget cShortNarrativeEnvelope 8000).exposition.narrative.length
        < cShortNarrativeEnvelope.exposition.narrative.length) := by
  constructor
  · decide
  · unfold applyTokenBudget
    rw [if_neg (by decide : ¬ (cShortNarrativeEnvelope.token_budget_used ≤ 8000))]
    simp only [cShortTargetLength]
    decide

/-- Claim C4 (amended): `apply_token_budget` is a no-op on compliant
envelopes, idempotent, and clamps over-budget usage to the maximum; the
narrative becomes strictly shorter exactly when the truncation target plus
the 14-character marker is still below the original narrative length
(a short narrative can grow by the appended marker). -/
theorem C4_token_budget_amended (envelope : ContextEnvelope) (maxTokens : Nat) :
    (envelope.token_budget_used ≤ maxTokens → applyTokenBudget envelope maxTokens = envelope) ∧
    applyTokenBudget (applyTokenBudget envelope maxTokens) maxTokens
      = applyTokenBudget envelope maxTokens ∧
    (maxTokens < envelope.token_budget_used →
      (applyTokenBudget envelope maxTokens).token_budget_used ≤ maxTokens) ∧
    (maxTokens < envelope.token_budget_used →
      budgetTargetLength envelope maxTokens + 14 < envelope.exposition.narrative.length →
      (applyTokenBudget envelope maxTokens).exposition.narrative.length
        < envelope.exposition.narrative.length) := by
  have hle : ∀ _ : envelope.token_budget_used ≤ maxTokens,
      applyTokenBudget envelope maxTokens = envelope := by
    intro h; unfold applyTokenBudget; rw [if_pos h]
  have hres : ∀ _ : ¬ (envelope.token_budget_used ≤ maxTokens),
      (applyTokenBudget envelope maxTokens).token_budget_used = maxTokens := by
    intro h; unfold applyTokenBudget; rw [if_neg h]
  refine ⟨hle, ?_, ?_, ?_⟩
  · by_cases h : envelope.token_budget_used ≤ maxTokens
    · simp only [hle h]
    · have htb := hres h
      generalize hr : applyTokenBudget envelope maxTokens = r at htb ⊢
      unfold applyTokenBudget
      rw [if_pos (le_of_eq htb)]
  · intro hover
    rw [hres (not_le.mpr hover)]
  · intro hover htl
    have hgt : envelope.exposition.narrative.length > budgetTargetLength envelope maxTokens := by
      omega
    unfold applyTokenBudget
    rw [if_neg (not_le.mpr hover)]
    simp only [if_pos hgt]
    rw [String.length_append, strTake_length]
    have h14 : ("...[truncated]" : String).length = 14 := rfl
    omega

/-- Claim C4 witness: on the 100-character over-budget envelope the amended
theorem yields a strictly shorter narrative and clamped usage. -/
theorem C4_token_budget_amended_witness :
    8000 < cLongNarrativeEnvelope.token_budget_used ∧
    (applyTokenBudget cLongNarrativeEnvelope 8000).token_budget_used ≤ 8000 ∧
    (applyTokenBudget cLongNarrativeEnvelope 8000).exposition.narrative.length
      < cLongNarrativeEnvelope.exposition.narrative.length := by
  have h := C4_token_budget_amended cLongNarrativeEnvelope 8000
  refine ⟨by decide, h.2.2.1 (by decide), h.2.2.2 (by decide) ?_⟩
  rw [cLongTargetLength]
  decide

/-- Claim C5 (code bug): the repository's own security test asserts that
`validate_repo_path("normal/../dangerous")` is `None`, but `normpath`
rewrites the path to `dangerous` before the `..` check, so validation
succeeds, resolution lands on `/tmp/repos/dangerous`, and when that target
exists the domain builder scans it instead of producing the invalid-path
sentinel. -/
theorem C5_traversal_passes_validation :
    strContainsSub cTraversalPath ("..") = true ∧
    (validateRepoPathSecurity cTraversalPath).valid = true ∧
    validateRepoPath cTraversalPath = some "/tmp/repos/dangerous" ∧
    (buildDomainContext { repo_path := some cTraversalPath } cDangerFs Option.none).repo_summary
      ≠ some ("Invalid repository path") :=
  ⟨by decide, by decide, by decide, by decide⟩

/-- Claim C6: a non-empty explicit task-type hint fixes the detected intent
to the normalized hint (lower-cased, spaces to underscores) with confidence
0.9, for any message text. -/
theorem C6_task_type_hint (message : String) (t : String) (sessionId : Option String)
    (h : t ≠ "") :
    (detectIntent message (some t) sessionId).primary_intent
        = pyReplace (pyLower t) (" ") ("_") ∧
    (detectIntent message (some t) sessionId).confidence_score = some ((9:ℚ)/10) := by
  unfold detectIntent
  simp [h]

/-- Claim C6 witness: the hint `Code Review` yields intent `code_review` at
confidence 0.9 regardless of the message. -/
theorem C6_task_type_hint_witness :
    ("Code Review" : String) ≠ "" ∧
    (detectIntent ("ignore the message") (some "Code Review") Option.none).primary_intent
      = "code_review" ∧
    (detectIntent ("ignore the message") (some "Code Review") Option.none).confidence_score
      = some ((9:ℚ)/10) := by
  have h := C6_task_type_hint ("ignore the message") ("Code Review") Option.none (by decide)
  refine ⟨by decide, ?_, h.2⟩
  rw [h.1]
  decide

/-- Claim C7: the preference map built by `build_user_context` always
contains every default key; a claims map without a user id yields an absent
(empty) user id; and with no roles, groups or preference overrides the
preference map is exactly the default profile. -/
theorem C7_default_preferences (authClaims : AuthClaims) (mem0Client : Option Mem0Client)
    (now : Nat) :
    (∀ k ∈ ["tone", "detail_level", "format", "include_examples", "language"],
      dictContains (buildUserContext authClaims mem0Client now).preferences k = true) ∧
    (authClaims.sub = Option.none → authClaims.user_id = Option.none →
      (buildUserContext authClaims mem0Client now).user_id = Option.none) ∧
    (authClaims.roles = Option.none → authClaims.groups = Option.none →
     authClaims.preferences = Option.none →
      (buildUserContext authClaims mem0Client now).preferences = defaultPreferences) := by
  refine ⟨?_, ?_, ?_⟩
  · intro k hk
    have hbase : dictContains defaultPreferences k = true := by
      fin_cases hk <;> decide
    show dictContains (buildUserContext authClaims mem0Client now).preferences k = true
    unfold buildUserContext
    simp only []
    split
    · apply dictContains_dictUpd
      split
      · exact dictContains_dictUpd _ _ _ hbase
      · split
        · exact dictContains_dictUpd _ _ _ hbase
        · exact hbase
    · split
      · exact dictContains_dictUpd _ _ _ hbase
      · split
        · exact dictContains_dictUpd _ _ _ hbase
        · exact hbase
  · intro h1 h2
    unfold buildUserContext
    simp only [h1, h2]
    rfl
  · intro h1 h2 h3
    unfold buildUserContext
    simp only [h1, h2, h3]
    rfl

/-- Claim C7 witness: empty claims, no mem0 client — the user id is absent
and the preferences are exactly the defaults, which include every default
key. -/
theorem C7_default_preferences_witness :
    (buildUserContext {} Option.none 0).user_id = Option.none ∧
    (buildUserContext {} Option.none 0).preferences = defaultPreferences ∧
    dictContains (buildUserContext {} Option.none 0).preferences ("tone") = true :=
  ⟨(C7_default_preferences {} Option.none 0).2.1 rfl rfl,
   (C7_default_preferences {} Option.none 0).2.2 rfl rfl rfl,
   (C7_default_preferences {} Option.none 0).1 ("tone") (by simp)⟩

/-- Claim C8: the priority score of `build_exposition` equals 0.5, plus 0.3
exactly when the primary intent is `architecture_design` or
`security_analysis`, plus 0.2 exactly when the system load is present and
strictly above 0.8. -/
theorem C8_priority_score (user : UserContext) (intent : IntentContext)
    (domain : DomainContext) (rules : RulesContext)
    (environment : EnvironmentContext) (config : ContextConfig)
    (nowIso : String) (now : Nat) :
    (buildExposition user intent domain rules environment config nowIso now).priority_score
      = some ((1:ℚ)/2
          + (if intent.primary_intent = "architecture_design"
                ∨ intent.primary_intent = "security_analysis" then (3:ℚ)/10 else 0)
          + (if ∃ q, environment.system_load = some q ∧ (4:ℚ)/5 < q then (1:ℚ)/5 else 0)) := by
  have hproj :
      (buildExposition user intent domain rules environment config nowIso now).priority_score
        = some (expositionPriority intent environment) := rfl
  rw [hproj]
  unfold expositionPriority
  congr 1
  by_cases hi : intent.primary_intent = "architecture_design"
      ∨ intent.primary_intent = "security_analysis"
  · have hc : (["architecture_design", "security_analysis"].contains
        intent.primary_intent) = true := by
      rcases hi with h | h <;> simp [h]
    rw [hc, if_pos hi]
    rcases hload : environment.system_load with _ | q
    · rw [if_neg (by rintro ⟨q, hq, _⟩; cases hq)]
      norm_num
    · by_cases hq : (4:ℚ)/5 < q
      · have hne : (q != 0) = true := by
          simp [bne]
          intro h0
          rw [h0] at hq
          norm_num at hq
        rw [if_pos ⟨q, rfl, hq⟩]
        simp [hne, hq]
      · have hnq : ¬ ∃ q', (some q : Option ℚ) = some q' ∧ (4:ℚ)/5 < q' := by
          rintro ⟨q', hq', hlt⟩; cases hq'; exact hq hlt
        rw [if_neg hnq]
        simp [hq]
  · have hc : (["architecture_design", "security_analysis"].contains
        intent.primary_intent) = false := by
      push_neg at hi
      simp [hi.1, hi.2]
    rw [hc, if_neg hi]
    rcases hload : environment.system_load with _ | q
    · rw [if_neg (by rintro ⟨q, hq, _⟩; cases hq)]
      norm_num
    · by_cases hq : (4:ℚ)/5 < q
      · have hne : (q != 0) = true := by
          simp [bne]
          intro h0
          rw [h0] at hq
          norm_num at hq
        rw [if_pos ⟨q, rfl, hq⟩]
        simp [hne, hq]
      · have hnq : ¬ ∃ q', (some q : Option ℚ) = some q' ∧ (4:ℚ)/5 < q' := by
          rintro ⟨q', hq', hlt⟩; cases hq'; exact hq hlt
        rw [if_neg hnq]
        simp [hq]

/-- Claim C9: intent classification is deterministic — equal message texts
yield equal category and confidence. -/
theorem C9_classification_deterministic (m1 m2 : String) (h : m1 = m2) :
    classifyIntentFromMessage m1 = classifyIntentFromMessage m2 := by
  rw [h]

/-- Claim C9 witness: two runs on the same concrete text agree. -/
theorem C9_classification_deterministic_witness :
    ("there is a bug in auth" : String) = "there is a bug in auth" ∧
    classifyIntentFromMessage ("there is a bug in auth")
      = classifyIntentFromMessage ("there is a bug in auth") :=
  ⟨rfl, C9_classification_deterministic ("there is a bug in auth")
    ("there is a bug in auth") rfl⟩

/-- Claim C10: under a truthy supplied path, both failure modes — rejected
validation and a validated path that does not exist — set the same sentinel
summary `Invalid repository path`, and the returned context keeps the raw,
unvalidated input path. -/
theorem C10_sentinel_and_raw_path (rc : RequestContext) (fs : FsOracle)
    (analyzer : Option RepoAnalyzer) (raw : String)
    (hraw : pyOrStr rc.repository_path rc.repo_path = some raw)
    (hne : raw ≠ "")
    (hfail : validateRepoPath raw = Option.none ∨
      ∃ vp, validateRepoPath raw = some vp ∧ fs.existsPath vp = false) :
    (buildDomainContext rc fs analyzer).repo_summary = some ("Invalid repository path") ∧
    (buildDomainContext rc fs analyzer).repo_path = some raw := by
  unfold buildDomainContext
  rw [hraw]
  have htr : optStrTruthy (some raw) = true := by simp [optStrTruthy, hne]
  simp only [htr, if_true, Option.getD_some]
  rcases hfail with hv | ⟨vp, hv, hex⟩
  · simp only [hv]
    constructor <;> split <;> first | rfl | (split <;> rfl)
  · simp only [hv, hex, Bool.false_eq_true, if_false]
    constructor <;> split <;> first | rfl | (split <;> rfl)

/-- Claim C10 witness: the traversal path `../etc` fails validation; the
summary is the sentinel and the raw path is retained. -/
theorem C10_sentinel_and_raw_path_witness :
    (buildDomainContext { repository_path := some "../etc" } cFs0 Option.none).repo_summary
      = some ("Invalid repository path") ∧
    (buildDomainContext { repository_path := some "../etc" } cFs0 Option.none).repo_path
      = some "../etc" :=
  C10_sentinel_and_raw_path { repository_path := some "../etc" } cFs0 Option.none "../etc"
    rfl (by decide) (Or.inl (by decide))

end Orchestra
